import Mathlib

set_option maxRecDepth 8000

/-!
Shallow embedding of the GRASS add-on script `r.in.landsat8.py`.

The script has two core functions:
* `get_metadata(dir, bands)` — reads `<basename dir>_MTL.txt`, scans every line
  for the marker substrings `REFLECTANCE_MULT_`, `REFLECTANCE_ADD_` and
  `SUN_ELEVATION`, and for each such line executes
  `key, val = line.split('='); mtl_dict[key.strip()] = float(val)`.
* `dn_to_reflectance(dir, dict, bands)` — for each band `b` imports
  `<basename>_B<b>.TIF` as raster `lower(basename)_b<b>`, sets the region, and
  submits the mapcalc expression
  `<rast>_reflect = (<mult>*<rast>+(<add>))/cos(<zenith>)` where `mult`, `add`
  and `zenith = 90.0 - sun_elevation` are rendered with `'{:f}'.format`, i.e.
  fixed-point notation with six digits after the decimal point.

Python floats are modelled as exact rationals (ℚ): every numeric literal in an
MTL file denotes a rational, subtraction and the decimal re-formatting are
exact rational operations.  The raster engine (GRASS) is modelled as the list
of commands the script submits to it; mapcalc's pixel-wise evaluation is a map
over a list of DN values with an abstract cosine-in-degrees function.
-/

/-! ### Python string primitives, char-list level -/

/-- Python `pat in s` (substring test): does `pat` occur contiguously in `s`? -/
def strStarts : List Char → List Char → Bool
  | [], _ => true
  | _ :: _, [] => false
  | p :: ps, c :: cs => p = c && strStarts ps cs

/-- Occurrence of `pat` anywhere in `s` (Python `pat in s`). -/
def strHas (pat : List Char) : List Char → Bool
  | [] => strStarts pat []
  | c :: cs => strStarts pat (c :: cs) || strHas pat cs

/-- Python `pat in line` on `String`s. -/
def pyIn (pat line : String) : Bool := strHas pat.data line.data

/-- Python `s.split(sep)` for a one-character separator: splitting a list of
characters on every occurrence of `sep`; `k` occurrences yield `k+1` parts. -/
def splitOnChar (sep : Char) : List Char → List (List Char)
  | [] => [[]]
  | c :: r =>
    if c = sep then [] :: splitOnChar sep r
    else
      match splitOnChar sep r with
      | [] => [[c]]
      | h :: t => (c :: h) :: t

/-- Python `line.split('=')` on `String`s. -/
def pySplitEq (line : String) : List String :=
  (splitOnChar '=' line.data).map (fun l => ⟨l⟩)

/-- Python `s.strip()`: drop leading and trailing whitespace characters. -/
def pyStrip (l : List Char) : List Char :=
  ((l.dropWhile Char.isWhitespace).reverse.dropWhile Char.isWhitespace).reverse

/-- Python `s.strip()` on `String`s. -/
def pyStripStr (s : String) : String := ⟨pyStrip s.data⟩

/-- Python `s.lower()` on `String`s: lower-case every character. -/
def pyLower (s : String) : String := ⟨s.data.map Char.toLower⟩

/-- POSIX `os.path.basename`: the part of the path after the last `/`. -/
def baseName (p : String) : String := ⟨(splitOnChar '/' p.data).getLastD []⟩

/-- POSIX `os.path.join dir file` for the cases arising in the script (the
joined file name is `<basename>_MTL.txt` or `<basename>_B<b>.TIF`, never an
absolute path, so the absolute-second-argument branch of `os.path.join` is
unreachable and omitted). -/
def pathJoin (a b : String) : String :=
  if a = "" then b
  else if a.data.getLast? = some '/' then a ++ b
  else a ++ "/" ++ b

/-! ### Python `float()` as a DFA over the literal grammar

Python's `float(s)` strips whitespace and accepts
`[sign] (digits [. digits?] | . digits) [(e|E) [sign] digits]`.
The special values `inf`/`nan` and underscore digit separators, which never
occur in Landsat MTL metadata, are outside the modelled grammar.  The parsed
value is the exact rational the decimal literal denotes (Python rounds it to
the nearest binary double; the ℚ model keeps it exact). -/

/-- Phases of the float-literal automaton. -/
inductive Ph where
  | start : Ph
  | signed : Ph
  | intd : Ph
  | fracd : Ph
  | dotOnly : Ph
  | ehead : Ph
  | esigned : Ph
  | expd : Ph
  | dead : Ph
deriving DecidableEq, Repr

/-- State of the float-literal automaton: current phase plus accumulated
sign, mantissa digits, count of fractional digits, and exponent. -/
structure FpState where
  phase : Ph
  neg : Bool
  mant : Nat
  fracLen : Nat
  eneg : Bool
  epow : Nat
deriving DecidableEq, Repr

/-- Initial automaton state. -/
def fpInit : FpState := ⟨Ph.start, false, 0, 0, false, 0⟩

/-- Numeric value of a digit character. -/
def digVal (c : Char) : Nat := c.toNat - 48

/-- One transition of the float-literal automaton. -/
def fpStep (st : FpState) (c : Char) : FpState :=
  match st.phase with
  | Ph.start =>
    if c = '+' then { st with phase := Ph.signed }
    else if c = '-' then { st with phase := Ph.signed, neg := true }
    else if c.isDigit then { st with phase := Ph.intd, mant := digVal c }
    else if c = '.' then { st with phase := Ph.dotOnly }
    else { st with phase := Ph.dead }
  | Ph.signed =>
    if c.isDigit then { st with phase := Ph.intd, mant := digVal c }
    else if c = '.' then { st with phase := Ph.dotOnly }
    else { st with phase := Ph.dead }
  | Ph.intd =>
    if c.isDigit then { st with mant := 10 * st.mant + digVal c }
    else if c = '.' then { st with phase := Ph.fracd }
    else if c = 'e' ∨ c = 'E' then { st with phase := Ph.ehead }
    else { st with phase := Ph.dead }
  | Ph.fracd =>
    if c.isDigit then
      { st with mant := 10 * st.mant + digVal c, fracLen := st.fracLen + 1 }
    else if c = 'e' ∨ c = 'E' then { st with phase := Ph.ehead }
    else { st with phase := Ph.dead }
  | Ph.dotOnly =>
    if c.isDigit then
      { st with phase := Ph.fracd, mant := 10 * st.mant + digVal c,
                fracLen := st.fracLen + 1 }
    else { st with phase := Ph.dead }
  | Ph.ehead =>
    if c = '+' then { st with phase := Ph.esigned }
    else if c = '-' then { st with phase := Ph.esigned, eneg := true }
    else if c.isDigit then { st with phase := Ph.expd, epow := digVal c }
    else { st with phase := Ph.dead }
  | Ph.esigned =>
    if c.isDigit then { st with phase := Ph.expd, epow := digVal c }
    else { st with phase := Ph.dead }
  | Ph.expd =>
    if c.isDigit then { st with epow := 10 * st.epow + digVal c }
    else { st with phase := Ph.dead }
  | Ph.dead => { st with phase := Ph.dead }

/-- Accepting phases: at least one mantissa digit has been read and any
exponent marker is followed by at least one exponent digit. -/
def fpAccept (p : Ph) : Bool :=
  match p with
  | Ph.intd => true
  | Ph.fracd => true
  | Ph.expd => true
  | _ => false

/-- Exact rational value of an accepted literal:
`±(mant / 10 ^ fracLen) · 10 ^ ±epow`. -/
def fpVal (st : FpState) : ℚ :=
  let base : ℚ := (st.mant : ℚ) / (10 : ℚ) ^ st.fracLen
  let mag : ℚ := if st.eneg then base / (10 : ℚ) ^ st.epow
                 else base * (10 : ℚ) ^ st.epow
  if st.neg then -mag else mag

/-- Python `float(s)`: strip whitespace, run the literal automaton, return the
exact rational value on acceptance and `none` (a `ValueError`) otherwise. -/
def pyFloat? (s : String) : Option ℚ :=
  let st := (pyStrip s.data).foldl fpStep fpInit
  if fpAccept st.phase then some (fpVal st) else none

/-! ### Python dict with string keys and float values

Modelled as an association list where assignment removes any previous binding
of the key and prepends the new one, so lookup finds the most recent
assignment — the observable behaviour of `d[k] = v` / `d[k]`. -/

/-- The calibration table: a Python `dict` from keys to float values. -/
abbrev Dict := List (String × ℚ)

/-- Python `d[k] = v`: bind `k` to `v`, replacing any previous binding. -/
def Dict.set (d : Dict) (k : String) (v : ℚ) : Dict :=
  (k, v) :: d.filter (fun p => p.1 != k)

/-- Python `d[k]` as an `Option`: the value of the most recent assignment to
`k`, or `none` (a `KeyError`) when `k` was never assigned. -/
def Dict.get? : Dict → String → Option ℚ
  | [], _ => none
  | (k', v) :: d, k => if k' = k then some v else Dict.get? d k

/-! ### The metadata extractor, `get_metadata` (lines 38-74 of the script) -/

/-- Errors `get_metadata` can raise: `IOError` from `open` when the metadata
file is missing, and `ValueError` from tuple unpacking or `float()` when a
marker line is malformed. -/
inductive MErr where
  | missingFile : MErr
  | malformedLine : MErr
deriving DecidableEq, Repr

/-- The filesystem, as far as the script reads it: a map from file paths to
file contents, the contents being the list of lines `readlines` returns. -/
abbrev FS := List (String × List String)

/-- Python `open(path).readlines()`: `none` is a missing file (`IOError`). -/
def fsRead? : FS → String → Option (List String)
  | [], _ => none
  | (p, ls) :: fs, q => if p = q then some ls else fsRead? fs q

/-- Path of the metadata file for a scene directory:
`os.path.join(dir, os.path.basename(dir) + "_MTL.txt")` (lines 46-48). -/
def mtl_path (dir : String) : String :=
  pathJoin dir (baseName dir ++ "_MTL.txt")

/-- Body of `key, val = line.split('='); mtl_dict[key.strip()] = float(val)`:
tuple unpacking demands exactly two parts, then `float(val)` must succeed. -/
def insertKV (d : Dict) (line : String) : Except MErr Dict :=
  match pySplitEq line with
  | [key, val] =>
    match pyFloat? val with
    | some v => Except.ok (d.set (pyStripStr key) v)
    | none => Except.error MErr.malformedLine
  | _ => Except.error MErr.malformedLine

/-- Processing of one line of the metadata file: the three sequential `if
<marker> in line` blocks of lines 58-69, each inserting the parsed key/value
pair, with the first raised exception propagating. -/
def stepLine (d : Dict) (line : String) : Except MErr Dict :=
  match (if pyIn "REFLECTANCE_MULT_" line then insertKV d line
         else Except.ok d) with
  | Except.error e => Except.error e
  | Except.ok d1 =>
    match (if pyIn "REFLECTANCE_ADD_" line then insertKV d1 line
           else Except.ok d1) with
    | Except.error e => Except.error e
    | Except.ok d2 =>
      if pyIn "SUN_ELEVATION" line then insertKV d2 line else Except.ok d2

/-- The `for i in range(len(lines))` loop of lines 57-69: process the lines in
order, the first uncaught exception aborting the loop. -/
def parseLines : Dict → List String → Except MErr Dict
  | d, [] => Except.ok d
  | d, line :: rest =>
    match stepLine d line with
    | Except.error e => Except.error e
    | Except.ok d2 => parseLines d2 rest

/-- The metadata extractor `get_metadata(dir, bands)` (lines 38-74): read
`<basename dir>_MTL.txt` from inside `dir` and run the per-line processing
over its lines, starting from the empty dict.  The `bands` argument is
accepted and, as in the script, never used. -/
def get_metadata (fs : FS) (dir : String) (bands : List String) :
    Except MErr Dict :=
  match fsRead? fs (mtl_path dir) with
  | none => Except.error MErr.missingFile
  | some lines => parseLines ([] : Dict) lines

/-! ### The `'{:f}'` fixed-point formatting (lines 94, 95, 97)

`'{:f}'.format(x)` renders `x` in fixed-point notation with six digits after
the decimal point, rounding the value half-to-even; the numeral in the
submitted expression therefore denotes `x` rounded to the nearest multiple of
`10⁻⁶`. -/

/-- Round a rational to the nearest integer, ties to the even integer. -/
def roundHalfEven (q : ℚ) : ℤ :=
  let n := ⌊q⌋
  let r : ℚ := q - (n : ℚ)
  if r < 1 / 2 then n
  else if 1 / 2 < r then n + 1
  else if n % 2 = 0 then n else n + 1

/-- Value denoted by `'{:f}'.format(q)`: `q` rounded to six decimal places. -/
def fmtF (q : ℚ) : ℚ := (roundHalfEven (q * 1000000) : ℚ) / 1000000

/-! ### The reflectance calculator, `dn_to_reflectance` (lines 76-105) -/

/-- Errors `dn_to_reflectance` can raise: a `KeyError` naming the missing
calibration key. -/
inductive RErr where
  | keyError (key : String) : RErr
deriving DecidableEq, Repr

/-- Commands the script submits to the GRASS raster engine, in order:
`r.in.gdal` imports a GeoTIFF as a raster layer, `g.region` sets the region
from a raster, and `r.mapcalc` evaluates, pixel-wise, the expression
`output = (mult * rast + (add)) / cos(zenith)` — the numeric fields hold the
exact values denoted by the fixed-point numerals spliced into the expression
string.  All layer-creating commands pass `overwrite=True`. -/
inductive Cmd where
  | inGdal (input : String) (output : String) (overwrite : Bool) : Cmd
  | gRegion (rast : String) : Cmd
  | mapcalc (output : String) (mult : ℚ) (rast : String) (add : ℚ)
      (zenith : ℚ) (overwrite : Bool) : Cmd
deriving DecidableEq, Repr

/-- GRASS `r.mapcalc` semantics for the submitted expression shape: evaluate
`(mult * dn + add) / cos(zenith)` at every pixel of the input raster, with
`cosd` the engine's cosine (GRASS trigonometric functions take degrees). -/
def mapcalcRun (cosd : ℚ → ℚ) (mult add zenith : ℚ) (pix : List ℚ) : List ℚ :=
  pix.map (fun dn => (mult * dn + add) / cosd zenith)

/-- Body of the per-band loop of `dn_to_reflectance` (lines 84-103): derive
the tile path and layer names, import and set the region, then look up the
three calibration values — a missing key raises `KeyError` after the import
but before the mapcalc — and finally submit the mapcalc expression built from
the `'{:f}'`-formatted values. -/
def dn_band (dir : String) (d : Dict) (b : String) : List Cmd × Option RErr :=
  let basedir := baseName dir
  let tif_path := pathJoin dir (basedir ++ "_B" ++ b ++ ".TIF")
  let rast := pyLower basedir ++ "_b" ++ b
  let rho := rast ++ "_reflect"
  let tr := [Cmd.inGdal tif_path rast true, Cmd.gRegion rast]
  match d.get? ("REFLECTANCE_MULT_BAND_" ++ b) with
  | none => (tr, some (RErr.keyError ("REFLECTANCE_MULT_BAND_" ++ b)))
  | some mult =>
    match d.get? ("REFLECTANCE_ADD_BAND_" ++ b) with
    | none => (tr, some (RErr.keyError ("REFLECTANCE_ADD_BAND_" ++ b)))
    | some add =>
      match d.get? "SUN_ELEVATION" with
      | none => (tr, some (RErr.keyError "SUN_ELEVATION"))
      | some sun =>
        (tr ++ [Cmd.mapcalc rho (fmtF mult) rast (fmtF add)
                  (fmtF (90 - sun)) true], none)

/-- The reflectance calculator `dn_to_reflectance(dir, dict, bands)` (lines
76-105): run the per-band body over the requested bands in order; an uncaught
exception stops the loop, so bands after the first error contribute no
commands.  The result is the full command trace and the error, if any. -/
def dn_to_reflectance (dir : String) (d : Dict) :
    List String → List Cmd × Option RErr
  | [] => ([], none)
  | b :: rest =>
    let r := dn_band dir d b
    match r.2 with
    | some e => (r.1, some e)
    | none =>
      let rr := dn_to_reflectance dir d rest
      (r.1 ++ rr.1, rr.2)

/-- Scene-level errors: an exception escaping `get_metadata` or
`dn_to_reflectance`. -/
inductive SceneErr where
  | metaErr (e : MErr) : SceneErr
  | calcErr (e : RErr) : SceneErr
deriving DecidableEq, Repr

/-- Per-scene body of `main` (lines 113-116): run `get_metadata` on the tile
path, and only on success run `dn_to_reflectance` with the returned dict.  A
metadata error aborts the scene before any engine command is issued. -/
def processScene (fs : FS) (tilePath : String) (bands : List String) :
    List Cmd × Option SceneErr :=
  match get_metadata fs tilePath bands with
  | Except.error e => ([], some (SceneErr.metaErr e))
  | Except.ok d =>
    let r := dn_to_reflectance tilePath d bands
    (r.1, r.2.map SceneErr.calcErr)

/-- The driver `main` (lines 107-116) over the scene subdirectories of the
input root: process each scene in order; the first uncaught exception aborts
the whole run. -/
def mainRun (top_dir : String) (fs : FS) (dirs : List String)
    (bands : List String) : List Cmd × Option SceneErr :=
  dirs.foldl
    (fun acc dd =>
      match acc.2 with
      | some _ => acc
      | none =>
        let r := processScene fs (pathJoin top_dir dd) bands
        (acc.1 ++ r.1, r.2))
    ([], none)

/-! ### A three-way classification of metadata lines

`lineStatus` is the net effect of the three `if <marker> in line` blocks on
one line: irrelevant lines are skipped, a relevant well-formed line inserts
one key/value pair (inserting the same pair two or three times, as happens
when several markers occur in one line, equals inserting it once), and a
relevant malformed line raises. -/

/-- Key/value pair a line yields under
`key, val = line.split('='); (key.strip(), float(val))`, when it parses. -/
def parseKV? (line : String) : Option (String × ℚ) :=
  match pySplitEq line with
  | [key, val] => (pyFloat? val).map (fun v => (pyStripStr key, v))
  | _ => none

/-- A line is relevant when it contains one of the three marker substrings. -/
def relevantLine (line : String) : Bool :=
  pyIn "REFLECTANCE_MULT_" line || pyIn "REFLECTANCE_ADD_" line ||
    pyIn "SUN_ELEVATION" line

/-- Net effect of one line on the dict. -/
inductive LineStatus where
  | skip : LineStatus
  | entry (k : String) (v : ℚ) : LineStatus
  | bad : LineStatus
deriving DecidableEq, Repr

/-- Classification of a line: irrelevant, one parsed key/value entry, or a
malformed relevant line. -/
def lineStatus (line : String) : LineStatus :=
  if relevantLine line then
    match parseKV? line with
    | some (k, v) => LineStatus.entry k v
    | none => LineStatus.bad
  else LineStatus.skip

/-- Value assigned to key `k` by one line, if any. -/
def lineVal? (k : String) (line : String) : Option ℚ :=
  match lineStatus line with
  | LineStatus.entry k2 v => if k2 = k then some v else none
  | _ => none

/-- Preference combinator: the first option when present, else the second. -/
def mergeVal (a b : Option ℚ) : Option ℚ :=
  match a with
  | some v => some v
  | none => b

/-- Value of the last line of `lines` that assigns to key `k`, if any. -/
def lastVal? (k : String) : List String → Option ℚ
  | [] => none
  | line :: rest => mergeVal (lastVal? k rest) (lineVal? k line)

/-! ### First-split reference semantics for relevant lines (spec section 4.1)

The spec describes the parsing of a relevant line as: split on the FIRST `=`
only, trim the left part as the key, parse the ENTIRE right part as the float
value, and fail when there is no `=` or the right side is not a valid float.
`stepLine_spec` is that description verbatim; it is compared with the
source-derived `stepLine`. -/

/-- Inverse of splitting on `=`: rejoin the parts after the first one, so that
`joinEq rest` is the entire right side of the first `=`. -/
def joinEq : List String → String
  | [] => ""
  | [s] => s
  | s :: rest => s ++ "=" ++ joinEq rest

/-- Reference semantics from the spec for a relevant line: first-`=` split,
trimmed key, whole right side parsed as a float. -/
def stepLine_spec (d : Dict) (line : String) : Except MErr Dict :=
  match pySplitEq line with
  | [] => Except.error MErr.malformedLine
  | [_] => Except.error MErr.malformedLine
  | key :: rest =>
    match pyFloat? (joinEq rest) with
    | some v => Except.ok (d.set (pyStripStr key) v)
    | none => Except.error MErr.malformedLine

/-! ### Projections of engine commands, for stating naming and zenith facts -/

/-- The layer and file names mentioned by a command, in argument order. -/
def Cmd.names : Cmd → List String
  | Cmd.inGdal input output _ => [input, output]
  | Cmd.gRegion rast => [rast]
  | Cmd.mapcalc output _ rast _ _ _ => [output, rast]

/-- The zenith argument of a mapcalc command. -/
def Cmd.zenithOf? : Cmd → Option ℚ
  | Cmd.mapcalc _ _ _ _ z _ => some z
  | _ => none

/-- The mult and add coefficients of a mapcalc command. -/
def Cmd.coeffs? : Cmd → Option (ℚ × ℚ)
  | Cmd.mapcalc _ m _ a _ _ => some (m, a)
  | _ => none

/-! ### Basic lemmas about the dict operations -/

theorem Dict.get?_set_self (d : Dict) (k : String) (v : ℚ) :
    (d.set k v).get? k = some v := by
  simp [Dict.set, Dict.get?]

theorem Dict.get?_cons (a : String × ℚ) (t : Dict) (k : String) :
    Dict.get? (a :: t) k = if a.1 = k then some a.2 else Dict.get? t k := by
  rcases a with ⟨ak, av⟩
  rfl

theorem Dict.get?_filter (d : Dict) (k k' : String) (h : k' ≠ k) :
    Dict.get? (d.filter (fun p => p.1 != k)) k' = d.get? k' := by
  induction d with
  | nil => rfl
  | cons a t ih =>
    rw [List.filter_cons]
    by_cases hak : a.1 = k
    · have hb : (a.1 != k) = false := by simp [hak]
      rw [hb]
      simp only [Bool.false_eq_true, if_false]
      rw [ih, Dict.get?_cons,
        if_neg (fun e => h (e.symm.trans hak))]
    · have hb : (a.1 != k) = true := by simp [hak]
      rw [hb]
      simp only [if_true]
      rw [Dict.get?_cons, Dict.get?_cons]
      by_cases hak' : a.1 = k'
      · rw [if_pos hak', if_pos hak']
      · rw [if_neg hak', if_neg hak', ih]

theorem Dict.get?_set_ne (d : Dict) (k k' : String) (v : ℚ) (h : k' ≠ k) :
    (d.set k v).get? k' = d.get? k' := by
  unfold Dict.set
  rw [Dict.get?_cons, if_neg (fun e => h e.symm)]
  exact Dict.get?_filter d k k' h

theorem Dict.set_idem (d : Dict) (k : String) (v : ℚ) :
    (d.set k v).set k v = d.set k v := by
  simp [Dict.set, List.filter_cons, List.filter_filter]

theorem insertKV_eq (d : Dict) (line : String) :
    insertKV d line = (match parseKV? line with
      | some (k, v) => Except.ok (d.set k v)
      | none => Except.error MErr.malformedLine) := by
  unfold insertKV parseKV?
  cases h : pySplitEq line with
  | nil => rfl
  | cons a t =>
    cases t with
    | nil => rfl
    | cons b t2 =>
      cases t2 with
      | nil => cases hf : pyFloat? b <;> simp [hf]
      | cons c t3 => rfl

theorem stepLine_eq (d : Dict) (line : String) :
    stepLine d line = (match lineStatus line with
      | LineStatus.skip => Except.ok d
      | LineStatus.entry k v => Except.ok (d.set k v)
      | LineStatus.bad => Except.error MErr.malformedLine) := by
  unfold stepLine lineStatus
  cases hp : parseKV? line with
  | none =>
    cases h1 : pyIn "REFLECTANCE_MULT_" line <;>
      cases h2 : pyIn "REFLECTANCE_ADD_" line <;>
        cases h3 : pyIn "SUN_ELEVATION" line <;>
          simp [relevantLine, h1, h2, h3, insertKV_eq, hp]
  | some kv =>
    obtain ⟨k, v⟩ := kv
    cases h1 : pyIn "REFLECTANCE_MULT_" line <;>
      cases h2 : pyIn "REFLECTANCE_ADD_" line <;>
        cases h3 : pyIn "SUN_ELEVATION" line <;>
          simp [relevantLine, h1, h2, h3, insertKV_eq, hp, Dict.set_idem]

/-! ### Behaviour of the line loop: errors and final lookups -/

theorem parseLines_error_of_bad (lines : List String) (d : Dict)
    (line : String) (hmem : line ∈ lines)
    (hbad : lineStatus line = LineStatus.bad) :
    parseLines d lines = Except.error MErr.malformedLine := by
  induction lines generalizing d with
  | nil => cases hmem
  | cons l ls ih =>
    unfold parseLines
    rw [stepLine_eq]
    rcases List.mem_cons.mp hmem with h | h
    · rw [h] at hbad
      rw [hbad]
    · cases hl : lineStatus l with
      | skip => exact ih d h
      | entry k v => exact ih _ h
      | bad => rfl

@[simp] theorem mergeVal_some (v : ℚ) (b : Option ℚ) :
    mergeVal (some v) b = some v := rfl

@[simp] theorem mergeVal_none (b : Option ℚ) : mergeVal none b = b := rfl

@[simp] theorem mergeVal_none_right (a : Option ℚ) : mergeVal a none = a := by
  cases a <;> rfl

theorem mergeVal_assoc (a b c : Option ℚ) :
    mergeVal (mergeVal a b) c = mergeVal a (mergeVal b c) := by
  cases a <;> rfl

theorem parseLines_get? (lines : List String) (d0 d : Dict) (k : String)
    (h : parseLines d0 lines = Except.ok d) :
    d.get? k = mergeVal (lastVal? k lines) (d0.get? k) := by
  induction lines generalizing d0 with
  | nil =>
    unfold parseLines at h
    cases h
    rfl
  | cons l ls ih =>
    unfold parseLines at h
    rw [stepLine_eq] at h
    have hcons : lastVal? k (l :: ls)
        = mergeVal (lastVal? k ls) (lineVal? k l) := rfl
    rw [hcons, mergeVal_assoc]
    cases hl : lineStatus l with
    | skip =>
      rw [hl] at h
      have h2 : parseLines d0 ls = Except.ok d := h
      have hlv : lineVal? k l = none := by simp [lineVal?, hl]
      rw [hlv, mergeVal_none]
      exact ih d0 h2
    | entry k2 v =>
      rw [hl] at h
      have h2 : parseLines (d0.set k2 v) ls = Except.ok d := h
      have hlv : lineVal? k l = if k2 = k then some v else none := by
        simp [lineVal?, hl]
      rw [hlv, ih _ h2]
      by_cases hk : k2 = k
      · subst hk
        rw [if_pos rfl, Dict.get?_set_self, mergeVal_some]
      · rw [if_neg hk, mergeVal_none,
          Dict.get?_set_ne d0 k2 k v (fun e => hk e.symm)]
    | bad =>
      rw [hl] at h
      have h2 : (Except.error MErr.malformedLine : Except MErr Dict)
          = Except.ok d := h
      cases h2

theorem lastVal?_append (k : String) (xs ys : List String) :
    lastVal? k (xs ++ ys) = mergeVal (lastVal? k ys) (lastVal? k xs) := by
  induction xs with
  | nil =>
    rw [List.nil_append]
    show lastVal? k ys = mergeVal (lastVal? k ys) none
    rw [mergeVal_none_right]
  | cons x xs ih =>
    have h1 : lastVal? k ((x :: xs) ++ ys)
        = mergeVal (lastVal? k (xs ++ ys)) (lineVal? k x) := rfl
    have h2 : lastVal? k (x :: xs)
        = mergeVal (lastVal? k xs) (lineVal? k x) := rfl
    rw [h1, ih, mergeVal_assoc, h2]

theorem lastVal?_none (k : String) (lines : List String)
    (h : ∀ l ∈ lines, lineVal? k l = none) : lastVal? k lines = none := by
  induction lines with
  | nil => rfl
  | cons l ls ih =>
    have h1 : lastVal? k (l :: ls)
        = mergeVal (lastVal? k ls) (lineVal? k l) := rfl
    rw [h1, ih (fun x hx => h x (List.mem_cons_of_mem l hx)),
      h l (List.mem_cons_self l ls)]
    rfl

/-! ### Strings containing `=` are never valid float literals -/

theorem fpStep_dead_self (st : FpState) (c : Char) (h : st.phase = Ph.dead) :
    (fpStep st c).phase = Ph.dead := by
  rcases st with ⟨ph, n, m, f, en, ep⟩
  cases h
  rfl

theorem foldl_fpStep_dead (l : List Char) (st : FpState)
    (h : st.phase = Ph.dead) : (l.foldl fpStep st).phase = Ph.dead := by
  induction l generalizing st with
  | nil => exact h
  | cons c cs ih => exact ih _ (fpStep_dead_self st c h)

theorem fpStep_eq_dead (st : FpState) : (fpStep st '=').phase = Ph.dead := by
  rcases st with ⟨ph, n, m, f, en, ep⟩
  cases ph <;> rfl

theorem mem_dropWhile_of_mem (p : Char → Bool) (l : List Char) (c : Char)
    (hc : c ∈ l) (hp : p c = false) : c ∈ l.dropWhile p := by
  induction l with
  | nil => cases hc
  | cons a t ih =>
    rw [List.dropWhile_cons]
    rcases List.mem_cons.mp hc with h | h
    · subst h
      rw [hp]
      simp
    · by_cases ha : p a = true
      · rw [ha]
        simp only [if_true]
        exact ih h
      · rw [Bool.not_eq_true] at ha
        rw [ha]
        simp only [Bool.false_eq_true, if_false]
        exact List.mem_cons_of_mem a h

theorem mem_pyStrip_of_mem (l : List Char) (c : Char) (hc : c ∈ l)
    (hw : c.isWhitespace = false) : c ∈ pyStrip l := by
  unfold pyStrip
  rw [List.mem_reverse]
  apply mem_dropWhile_of_mem _ _ _ _ hw
  rw [List.mem_reverse]
  exact mem_dropWhile_of_mem _ _ _ hc hw

theorem pyFloat?_none_of_mem (s : String) (h : '=' ∈ s.data) :
    pyFloat? s = none := by
  have hmem : '=' ∈ pyStrip s.data := mem_pyStrip_of_mem s.data '=' h (by decide)
  obtain ⟨l1, l2, hdec⟩ := List.append_of_mem hmem
  have hdead : ((pyStrip s.data).foldl fpStep fpInit).phase = Ph.dead := by
    rw [hdec, List.foldl_append, List.foldl_cons]
    exact foldl_fpStep_dead l2 _ (fpStep_eq_dead _)
  unfold pyFloat?
  simp only [hdead]
  rfl

theorem strData_append (a b : String) : (a ++ b).data = a.data ++ b.data := by
  rcases a with ⟨la⟩
  rcases b with ⟨lb⟩
  rfl

theorem mem_joinEq_cons_cons (r1 r2 : String) (rs : List String) :
    '=' ∈ (joinEq (r1 :: r2 :: rs)).data := by
  show '=' ∈ (r1 ++ "=" ++ joinEq (r2 :: rs)).data
  rw [strData_append, strData_append]
  simp

/-! ### Per-band and per-scene helper lemmas -/

theorem dn_band_ok (dir : String) (d : Dict) (b : String) (m a s : ℚ)
    (hm : d.get? ("REFLECTANCE_MULT_BAND_" ++ b) = some m)
    (ha : d.get? ("REFLECTANCE_ADD_BAND_" ++ b) = some a)
    (hs : d.get? "SUN_ELEVATION" = some s) :
    dn_band dir d b =
      ([Cmd.inGdal (pathJoin dir (baseName dir ++ "_B" ++ b ++ ".TIF"))
          (pyLower (baseName dir) ++ "_b" ++ b) true,
        Cmd.gRegion (pyLower (baseName dir) ++ "_b" ++ b),
        Cmd.mapcalc (pyLower (baseName dir) ++ "_b" ++ b ++ "_reflect")
          (fmtF m) (pyLower (baseName dir) ++ "_b" ++ b) (fmtF a)
          (fmtF (90 - s)) true], none) := by
  unfold dn_band
  simp only [hm, ha, hs]
  rfl

theorem dn_band_no_mult (dir : String) (d : Dict) (b : String)
    (hm : d.get? ("REFLECTANCE_MULT_BAND_" ++ b) = none) :
    dn_band dir d b =
      ([Cmd.inGdal (pathJoin dir (baseName dir ++ "_B" ++ b ++ ".TIF"))
          (pyLower (baseName dir) ++ "_b" ++ b) true,
        Cmd.gRegion (pyLower (baseName dir) ++ "_b" ++ b)],
       some (RErr.keyError ("REFLECTANCE_MULT_BAND_" ++ b))) := by
  unfold dn_band
  simp only [hm]

theorem dn_band_no_add (dir : String) (d : Dict) (b : String) (m : ℚ)
    (hm : d.get? ("REFLECTANCE_MULT_BAND_" ++ b) = some m)
    (ha : d.get? ("REFLECTANCE_ADD_BAND_" ++ b) = none) :
    dn_band dir d b =
      ([Cmd.inGdal (pathJoin dir (baseName dir ++ "_B" ++ b ++ ".TIF"))
          (pyLower (baseName dir) ++ "_b" ++ b) true,
        Cmd.gRegion (pyLower (baseName dir) ++ "_b" ++ b)],
       some (RErr.keyError ("REFLECTANCE_ADD_BAND_" ++ b))) := by
  unfold dn_band
  simp only [hm, ha]

theorem dn_to_reflectance_err_of_mem (dir : String) (d : Dict) (b : String)
    (bands : List String) (hmem : b ∈ bands)
    (herr : (dn_band dir d b).2.isSome = true) :
    (dn_to_reflectance dir d bands).2.isSome = true := by
  induction bands with
  | nil => cases hmem
  | cons b2 rest ih =>
    have hstep : dn_to_reflectance dir d (b2 :: rest)
        = (match (dn_band dir d b2).2 with
           | some e => ((dn_band dir d b2).1, some e)
           | none => ((dn_band dir d b2).1 ++ (dn_to_reflectance dir d rest).1,
                      (dn_to_reflectance dir d rest).2)) := rfl
    rw [hstep]
    cases h2 : (dn_band dir d b2).2 with
    | some e => rfl
    | none =>
      rcases List.mem_cons.mp hmem with h | h
      · rw [← h] at h2
        rw [h2] at herr
        cases herr
      · exact ih h

/-! ### Exactness of the fixed-point formatting on six-decimal values -/

theorem roundHalfEven_intCast (n : ℤ) : roundHalfEven (n : ℚ) = n := by
  unfold roundHalfEven
  rw [Int.floor_intCast]
  norm_num

theorem fmtF_eq_self (q : ℚ) (n : ℤ) (h : q * 1000000 = (n : ℚ)) :
    fmtF q = q := by
  unfold fmtF
  rw [h, roundHalfEven_intCast, ← h, mul_div_assoc,
    div_self (by norm_num : (1000000 : ℚ) ≠ 0), mul_one]

/-! ### Claim theorems -/

/-- C10: `get_metadata` depends only on the filesystem and the scene
directory; the requested-bands argument is never used, so any two band lists
produce the same calibration table. -/
theorem C10_bands_independent (fs : FS) (dir : String)
    (bands1 bands2 : List String) :
    get_metadata fs dir bands1 = get_metadata fs dir bands2 := rfl

/-- C5: when the metadata file `<basename dir>_MTL.txt` does not exist inside
the scene directory, `get_metadata` raises the missing-file error and the
scene produces no engine commands at all — in particular no reflectance
raster for any band. -/
theorem C5_missing_mtl (fs : FS) (dir : String) (bands : List String)
    (h : fsRead? fs (mtl_path dir) = none) :
    get_metadata fs dir bands = Except.error MErr.missingFile ∧
      processScene fs dir bands
        = ([], some (SceneErr.metaErr MErr.missingFile)) := by
  have hg : get_metadata fs dir bands = Except.error MErr.missingFile := by
    unfold get_metadata
    rw [h]
  refine ⟨hg, ?_⟩
  unfold processScene
  rw [hg]

/-- C5 witness: an empty filesystem has no metadata file for scene `LC08`. -/
theorem C5_missing_mtl_witness :
    get_metadata [] "LC08" ["4"] = Except.error MErr.missingFile ∧
      processScene [] "LC08" ["4"]
        = ([], some (SceneErr.metaErr MErr.missingFile)) :=
  C5_missing_mtl [] "LC08" ["4"] rfl

/-- C2: on every relevant line, the three-way marker processing of the source
behaves exactly as the spec's first-split description `stepLine_spec`: split
on the first `=`, trim the left part as the key, parse the entire right side
as a float — also on lines with more than one `=`, where both sides raise
(the source because tuple unpacking of three or more parts fails, the
description because a right side containing `=` is never a valid float). -/
theorem C2_first_split (d : Dict) (line : String)
    (hrel : relevantLine line = true) :
    stepLine d line = stepLine_spec d line := by
  rw [stepLine_eq]
  unfold lineStatus
  rw [if_pos hrel]
  unfold stepLine_spec parseKV?
  cases h : pySplitEq line with
  | nil => rfl
  | cons a t =>
    cases t with
    | nil => rfl
    | cons b2 t2 =>
      cases t2 with
      | nil =>
        dsimp only
        have hj : joinEq [b2] = b2 := rfl
        rw [hj]
        cases hf : pyFloat? b2 <;> simp [hf]
      | cons c t3 =>
        dsimp only
        rw [pyFloat?_none_of_mem (joinEq (b2 :: c :: t3))
          (mem_joinEq_cons_cons b2 c t3)]

/-- C2 witness: a well-formed `SUN_ELEVATION` line and a line with two `=`
are both relevant, and on both the source processing agrees with the
first-split description. -/
theorem C2_first_split_witness :
    stepLine [] "SUN_ELEVATION = 45.0" = stepLine_spec [] "SUN_ELEVATION = 45.0"
      ∧ stepLine [] "SUN_ELEVATION = 45.0 = 7"
          = stepLine_spec [] "SUN_ELEVATION = 45.0 = 7" :=
  ⟨C2_first_split [] "SUN_ELEVATION = 45.0" (by decide),
   C2_first_split [] "SUN_ELEVATION = 45.0 = 7" (by decide)⟩

/-- C3: a line of the metadata file that contains a marker substring but
cannot be parsed as key=value — no `=` at all, or a right side (taken in
whole, after the first `=`) that is not a valid float literal — makes
`get_metadata` raise the malformed-line error, so no calibration table is
returned and the scene issues no engine command: the error precedes any
raster import or computation. -/
theorem C3_malformed_fatal (fs : FS) (dir : String) (bands : List String)
    (lines : List String) (line : String)
    (hread : fsRead? fs (mtl_path dir) = some lines)
    (hmem : line ∈ lines)
    (hrel : relevantLine line = true)
    (hbadkv : match pySplitEq line with
      | [] => True
      | [_] => True
      | _ :: rest => pyFloat? (joinEq rest) = none) :
    get_metadata fs dir bands = Except.error MErr.malformedLine ∧
      processScene fs dir bands
        = ([], some (SceneErr.metaErr MErr.malformedLine)) := by
  have hbad : lineStatus line = LineStatus.bad := by
    unfold lineStatus
    rw [if_pos hrel]
    unfold parseKV?
    cases h : pySplitEq line with
    | nil => rfl
    | cons a t =>
      cases t with
      | nil => rfl
      | cons b2 t2 =>
        cases t2 with
        | nil =>
          dsimp only
          rw [h] at hbadkv
          have hb : pyFloat? b2 = none := hbadkv
          rw [hb]
          rfl
        | cons c t3 =>
          rfl
  have hg : get_metadata fs dir bands = Except.error MErr.malformedLine := by
    unfold get_metadata
    rw [hread]
    exact parseLines_error_of_bad lines [] line hmem hbad
  refine ⟨hg, ?_⟩
  unfold processScene
  rw [hg]

/-- C3 witness: the scene `LC08` has a metadata file whose second line
contains the marker `REFLECTANCE_MULT_` but no `=`; parsing fails and the
scene issues no command. -/
theorem C3_malformed_fatal_witness :
    get_metadata
        [("LC08/LC08_MTL.txt",
          ["GROUP = L1_METADATA_FILE", "REFLECTANCE_MULT_BAND_5 garbage"])]
        "LC08" ["5"]
      = Except.error MErr.malformedLine ∧
    processScene
        [("LC08/LC08_MTL.txt",
          ["GROUP = L1_METADATA_FILE", "REFLECTANCE_MULT_BAND_5 garbage"])]
        "LC08" ["5"]
      = ([], some (SceneErr.metaErr MErr.malformedLine)) :=
  C3_malformed_fatal _ "LC08" ["5"] _ "REFLECTANCE_MULT_BAND_5 garbage"
    rfl (by decide) (by decide) trivial

/-- C7: for a metadata file that parses successfully, a relevant line of the
form `<kl>=<r>` whose trimmed key is not re-assigned by any later line ends
up in the table bound exactly to the rational value `float(r)` denotes —
whether `r` is written in plain decimal or scientific notation. -/
theorem C7_exact_value (fs : FS) (dir : String) (bands : List String)
    (lines pre post : List String) (line kl r : String) (v : ℚ) (d : Dict)
    (hread : fsRead? fs (mtl_path dir) = some lines)
    (hdecomp : lines = pre ++ line :: post)
    (hrel : relevantLine line = true)
    (hsplit : pySplitEq line = [kl, r])
    (hval : pyFloat? r = some v)
    (hlater : ∀ l2 ∈ post, lineVal? (pyStripStr kl) l2 = none)
    (hok : get_metadata fs dir bands = Except.ok d) :
    d.get? (pyStripStr kl) = some v := by
  unfold get_metadata at hok
  rw [hread] at hok
  have hline : lineStatus line = LineStatus.entry (pyStripStr kl) v := by
    unfold lineStatus
    rw [if_pos hrel]
    unfold parseKV?
    rw [hsplit]
    dsimp only
    rw [hval]
    rfl
  have hlv : lineVal? (pyStripStr kl) line = some v := by
    unfold lineVal?
    rw [hline]
    dsimp only
    rw [if_pos rfl]
  have hpost : lastVal? (pyStripStr kl) post = none :=
    lastVal?_none _ post hlater
  have hcons : lastVal? (pyStripStr kl) (line :: post) = some v := by
    show mergeVal (lastVal? (pyStripStr kl) post)
      (lineVal? (pyStripStr kl) line) = some v
    rw [hpost, mergeVal_none, hlv]
  have hlast : lastVal? (pyStripStr kl) lines = some v := by
    rw [hdecomp, lastVal?_append, hcons, mergeVal_some]
  rw [parseLines_get? lines [] d (pyStripStr kl) hok, hlast, mergeVal_some]

/-- C7 witness: a one-line metadata file with a scientific-notation value;
the parsed table binds the key to exactly 1.2E-05 = 3/250000. -/
theorem C7_exact_value_witness :
    Dict.get? [("REFLECTANCE_MULT_BAND_4", (3 : ℚ) / 250000)]
      (pyStripStr "REFLECTANCE_MULT_BAND_4 ") = some ((3 : ℚ) / 250000) := by
  have hval : pyFloat? " 1.2E-05" = some ((3 : ℚ) / 250000) := by
    have h : (pyStrip " 1.2E-05".data).foldl fpStep fpInit =
        ⟨Ph.expd, false, 12, 1, true, 5⟩ := by decide
    simp only [pyFloat?, h]
    norm_num [fpVal, fpAccept]
  have hok : get_metadata
      [("LC08/LC08_MTL.txt", ["REFLECTANCE_MULT_BAND_4 = 1.2E-05"])]
      "LC08" ["4"]
      = Except.ok [("REFLECTANCE_MULT_BAND_4", (3 : ℚ) / 250000)] := by
    unfold get_metadata
    rw [show fsRead?
        [("LC08/LC08_MTL.txt", ["REFLECTANCE_MULT_BAND_4 = 1.2E-05"])]
        (mtl_path "LC08")
        = some ["REFLECTANCE_MULT_BAND_4 = 1.2E-05"] from rfl]
    unfold parseLines
    rw [stepLine_eq,
      show lineStatus "REFLECTANCE_MULT_BAND_4 = 1.2E-05"
        = (match parseKV? "REFLECTANCE_MULT_BAND_4 = 1.2E-05" with
           | some (k, v) => LineStatus.entry k v
           | none => LineStatus.bad) from if_pos (by decide),
      show parseKV? "REFLECTANCE_MULT_BAND_4 = 1.2E-05"
        = (pyFloat? " 1.2E-05").map
            (fun v => (pyStripStr "REFLECTANCE_MULT_BAND_4 ", v)) from rfl,
      hval]
    rfl
  exact C7_exact_value
    [("LC08/LC08_MTL.txt", ["REFLECTANCE_MULT_BAND_4 = 1.2E-05"])]
    "LC08" ["4"] ["REFLECTANCE_MULT_BAND_4 = 1.2E-05"] [] []
    "REFLECTANCE_MULT_BAND_4 = 1.2E-05" "REFLECTANCE_MULT_BAND_4 " " 1.2E-05"
    ((3 : ℚ) / 250000) [("REFLECTANCE_MULT_BAND_4", (3 : ℚ) / 250000)]
    rfl rfl (by decide) (by decide) hval (fun l2 hl2 => absurd hl2 (by simp))
    hok

/-- C8: when the same key is assigned by several relevant lines of the
metadata file, the parsed table maps it to the value of its last occurrence:
each later insertion overwrites the earlier one. -/
theorem C8_last_wins (fs : FS) (dir : String) (bands : List String)
    (lines pre post : List String) (line k : String) (v : ℚ) (d : Dict)
    (hread : fsRead? fs (mtl_path dir) = some lines)
    (hdecomp : lines = pre ++ line :: post)
    (hline : lineVal? k line = some v)
    (hlater : ∀ l2 ∈ post, lineVal? k l2 = none)
    (hok : get_metadata fs dir bands = Except.ok d) :
    d.get? k = some v := by
  unfold get_metadata at hok
  rw [hread] at hok
  have hpost : lastVal? k post = none := lastVal?_none _ post hlater
  have hcons : lastVal? k (line :: post) = some v := by
    show mergeVal (lastVal? k post) (lineVal? k line) = some v
    rw [hpost, mergeVal_none, hline]
  have hlast : lastVal? k lines = some v := by
    rw [hdecomp, lastVal?_append, hcons, mergeVal_some]
  rw [parseLines_get? lines [] d k hok, hlast, mergeVal_some]

/-- C8 witness: `SUN_ELEVATION` is assigned twice; the table holds the value
of the second assignment, 20. -/
theorem C8_last_wins_witness :
    Dict.get? [("SUN_ELEVATION", (20 : ℚ))] "SUN_ELEVATION"
      = some (20 : ℚ) := by
  have hv10 : pyFloat? " 10.0" = some ((10 : ℚ)) := by
    have h : (pyStrip " 10.0".data).foldl fpStep fpInit =
        ⟨Ph.fracd, false, 100, 1, false, 0⟩ := by decide
    simp only [pyFloat?, h]
    norm_num [fpVal, fpAccept]
  have hv20 : pyFloat? " 20.0" = some ((20 : ℚ)) := by
    have h : (pyStrip " 20.0".data).foldl fpStep fpInit =
        ⟨Ph.fracd, false, 200, 1, false, 0⟩ := by decide
    simp only [pyFloat?, h]
    norm_num [fpVal, fpAccept]
  have hst10 : lineStatus "SUN_ELEVATION = 10.0"
      = LineStatus.entry "SUN_ELEVATION" 10 := by
    unfold lineStatus
    rw [if_pos (by decide),
      show parseKV? "SUN_ELEVATION = 10.0"
        = (pyFloat? " 10.0").map (fun v => (pyStripStr "SUN_ELEVATION ", v))
        from rfl, hv10]
    rfl
  have hst20 : lineStatus "SUN_ELEVATION = 20.0"
      = LineStatus.entry "SUN_ELEVATION" 20 := by
    unfold lineStatus
    rw [if_pos (by decide),
      show parseKV? "SUN_ELEVATION = 20.0"
        = (pyFloat? " 20.0").map (fun v => (pyStripStr "SUN_ELEVATION ", v))
        from rfl, hv20]
    rfl
  have hok : get_metadata
      [("LC08/LC08_MTL.txt", ["SUN_ELEVATION = 10.0", "SUN_ELEVATION = 20.0"])]
      "LC08" ["4"]
      = Except.ok [("SUN_ELEVATION", (20 : ℚ))] := by
    unfold get_metadata
    rw [show fsRead?
        [("LC08/LC08_MTL.txt",
          ["SUN_ELEVATION = 10.0", "SUN_ELEVATION = 20.0"])]
        (mtl_path "LC08")
        = some ["SUN_ELEVATION = 10.0", "SUN_ELEVATION = 20.0"] from rfl]
    unfold parseLines
    rw [stepLine_eq, hst10]
    dsimp only
    unfold parseLines
    rw [stepLine_eq, hst20]
    rfl
  have hlv : lineVal? "SUN_ELEVATION" "SUN_ELEVATION = 20.0" = some 20 := by
    unfold lineVal?
    rw [hst20]
    rfl
  exact C8_last_wins
    [("LC08/LC08_MTL.txt", ["SUN_ELEVATION = 10.0", "SUN_ELEVATION = 20.0"])]
    "LC08" ["4"] ["SUN_ELEVATION = 10.0", "SUN_ELEVATION = 20.0"]
    ["SUN_ELEVATION = 10.0"] [] "SUN_ELEVATION = 20.0" "SUN_ELEVATION"
    (20 : ℚ) [("SUN_ELEVATION", (20 : ℚ))]
    rfl rfl hlv (fun l2 hl2 => absurd hl2 (by simp)) hok

/-- C4: when `REFLECTANCE_MULT_BAND_<b>` or `REFLECTANCE_ADD_BAND_<b>` is
absent from the table, the per-band step for `b` performs the import and the
region setting but raises a `KeyError` before building the expression, so it
never submits a mapcalc command and no reflectance raster is produced for
that band; consequently any run whose band list contains `b` reports an
error. -/
theorem C4_missing_key (dir : String) (d : Dict) (b : String)
    (h : d.get? ("REFLECTANCE_MULT_BAND_" ++ b) = none ∨
         d.get? ("REFLECTANCE_ADD_BAND_" ++ b) = none) :
    (dn_band dir d b).1 =
      [Cmd.inGdal (pathJoin dir (baseName dir ++ "_B" ++ b ++ ".TIF"))
         (pyLower (baseName dir) ++ "_b" ++ b) true,
       Cmd.gRegion (pyLower (baseName dir) ++ "_b" ++ b)] ∧
    (∃ k, (dn_band dir d b).2 = some (RErr.keyError k)) ∧
    ∀ bands, b ∈ bands → (dn_to_reflectance dir d bands).2.isSome = true := by
  have hband : (dn_band dir d b).1 =
      [Cmd.inGdal (pathJoin dir (baseName dir ++ "_B" ++ b ++ ".TIF"))
         (pyLower (baseName dir) ++ "_b" ++ b) true,
       Cmd.gRegion (pyLower (baseName dir) ++ "_b" ++ b)] ∧
      ∃ k, (dn_band dir d b).2 = some (RErr.keyError k) := by
    rcases h with hm | ha
    · rw [dn_band_no_mult dir d b hm]
      exact ⟨rfl, _, rfl⟩
    · cases hm : d.get? ("REFLECTANCE_MULT_BAND_" ++ b) with
      | none =>
        rw [dn_band_no_mult dir d b hm]
        exact ⟨rfl, _, rfl⟩
      | some m =>
        rw [dn_band_no_add dir d b m hm ha]
        exact ⟨rfl, _, rfl⟩
  refine ⟨hband.1, hband.2, fun bands hmem => ?_⟩
  obtain ⟨k, hk⟩ := hband.2
  exact dn_to_reflectance_err_of_mem dir d b bands hmem (by rw [hk]; rfl)

/-- C4 witness: a table holding only `SUN_ELEVATION` lacks the band-4 mult
key; band 4 is imported but no mapcalc is submitted, and the run for band
list `["4"]` reports an error. -/
theorem C4_missing_key_witness :
    (dn_band "LC08" [("SUN_ELEVATION", (60 : ℚ))] "4").1 =
      [Cmd.inGdal (pathJoin "LC08" (baseName "LC08" ++ "_B" ++ "4" ++ ".TIF"))
         (pyLower (baseName "LC08") ++ "_b" ++ "4") true,
       Cmd.gRegion (pyLower (baseName "LC08") ++ "_b" ++ "4")] ∧
    (∃ k, (dn_band "LC08" [("SUN_ELEVATION", (60 : ℚ))] "4").2
        = some (RErr.keyError k)) ∧
    (dn_to_reflectance "LC08" [("SUN_ELEVATION", (60 : ℚ))] ["4"]).2.isSome
      = true := by
  obtain ⟨h1, h2, h3⟩ :=
    C4_missing_key "LC08" [("SUN_ELEVATION", (60 : ℚ))] "4" (Or.inl rfl)
  exact ⟨h1, h2, h3 ["4"] (by simp)⟩

/-- C9: for every scene directory and requested band `b`, the per-band step
reads the tile `<basename>_B<b>.TIF` from inside the directory, imports it as
the layer `lower(basename)_b<b>`, and names the computed output layer
`lower(basename)_b<b>_reflect` — shown by projecting every submitted command
to the names it mentions. -/
theorem C9_naming (dir : String) (d : Dict) (b : String) (m a s : ℚ)
    (hm : d.get? ("REFLECTANCE_MULT_BAND_" ++ b) = some m)
    (ha : d.get? ("REFLECTANCE_ADD_BAND_" ++ b) = some a)
    (hs : d.get? "SUN_ELEVATION" = some s) :
    (dn_band dir d b).1.map Cmd.names =
      [[pathJoin dir (baseName dir ++ "_B" ++ b ++ ".TIF"),
        pyLower (baseName dir) ++ "_b" ++ b],
       [pyLower (baseName dir) ++ "_b" ++ b],
       [pyLower (baseName dir) ++ "_b" ++ b ++ "_reflect",
        pyLower (baseName dir) ++ "_b" ++ b]] := by
  rw [dn_band_ok dir d b m a s hm ha hs]
  rfl

/-- C9 witness: scene `scenes/LC8123` and band 4 produce the tile path
`scenes/LC8123/LC8123_B4.TIF`, the layer `lc8123_b4` and the output layer
`lc8123_b4_reflect`. -/
theorem C9_naming_witness :
    (dn_band "scenes/LC8123"
        [("REFLECTANCE_MULT_BAND_4", (1 : ℚ) / 50000),
         ("REFLECTANCE_ADD_BAND_4", (-1 : ℚ) / 10),
         ("SUN_ELEVATION", (60 : ℚ))] "4").1.map Cmd.names =
      [["scenes/LC8123/LC8123_B4.TIF", "lc8123_b4"],
       ["lc8123_b4"],
       ["lc8123_b4_reflect", "lc8123_b4"]] := by
  rw [C9_naming "scenes/LC8123"
    [("REFLECTANCE_MULT_BAND_4", (1 : ℚ) / 50000),
     ("REFLECTANCE_ADD_BAND_4", (-1 : ℚ) / 10),
     ("SUN_ELEVATION", (60 : ℚ))] "4"
    ((1 : ℚ) / 50000) ((-1 : ℚ) / 10) (60 : ℚ) rfl rfl rfl]
  rfl

/-- C1 counterexample: the claim that the submitted expression carries the
mult and add coefficients EXACTLY as stored in the table is false, because
the script renders them with `'{:f}'.format`, fixed-point with six decimal
places.  With stored mult `3.0E-7` the numeral in the expression denotes `0`,
not `3.0E-7`. -/
theorem C1_counterexample :
    ¬ (∀ (dir : String) (d : Dict) (b : String) (m a s : ℚ),
        d.get? ("REFLECTANCE_MULT_BAND_" ++ b) = some m →
        d.get? ("REFLECTANCE_ADD_BAND_" ++ b) = some a →
        d.get? "SUN_ELEVATION" = some s →
        (dn_band dir d b).1.filterMap Cmd.coeffs? = [(m, a)]) := by
  intro hcl
  have h := hcl "LC08"
    [("REFLECTANCE_MULT_BAND_1", (3 : ℚ) / 10000000),
     ("REFLECTANCE_ADD_BAND_1", (-1 : ℚ) / 10),
     ("SUN_ELEVATION", (60 : ℚ))]
    "1" ((3 : ℚ) / 10000000) ((-1 : ℚ) / 10) (60 : ℚ) rfl rfl rfl
  have h2 : fmtF ((3 : ℚ) / 10000000) = (3 : ℚ) / 10000000 := by
    have h3 : (dn_band "LC08"
        [("REFLECTANCE_MULT_BAND_1", (3 : ℚ) / 10000000),
         ("REFLECTANCE_ADD_BAND_1", (-1 : ℚ) / 10),
         ("SUN_ELEVATION", (60 : ℚ))] "1").1.filterMap Cmd.coeffs?
        = [(fmtF ((3 : ℚ) / 10000000), fmtF ((-1 : ℚ) / 10))] := by
      rw [dn_band_ok "LC08"
        [("REFLECTANCE_MULT_BAND_1", (3 : ℚ) / 10000000),
         ("REFLECTANCE_ADD_BAND_1", (-1 : ℚ) / 10),
         ("SUN_ELEVATION", (60 : ℚ))]
        "1" ((3 : ℚ) / 10000000) ((-1 : ℚ) / 10) (60 : ℚ) rfl rfl rfl]
      rfl
    rw [h3] at h
    exact (Prod.mk.injEq _ _ _ _).mp (List.cons.injEq _ _ _ _ |>.mp h).1 |>.1
  rw [show fmtF ((3 : ℚ) / 10000000) = 0 from by
    norm_num [fmtF, roundHalfEven]] at h2
  exact absurd h2.symm (by norm_num)

/-- C1 (amended): for a band whose three calibration keys are present, the
per-band step submits exactly one import, one region setting and one mapcalc
expression, whose coefficients are the table values ROUNDED TO SIX DECIMAL
PLACES by `'{:f}'` (`fmtF`) and whose zenith numeral is `90 - sun_elevation`
so rounded; the engine evaluates that expression pixel-wise as
`(mult' * dn + add') / cos(zenith')` over every pixel of the imported
raster.  The spec's concrete example is unaffected: `2.0E-5`, `-0.1` and
`30.0` are exact at six decimal places. -/
theorem C1_reflectance (dir : String) (d : Dict) (b : String) (m a s : ℚ)
    (hm : d.get? ("REFLECTANCE_MULT_BAND_" ++ b) = some m)
    (ha : d.get? ("REFLECTANCE_ADD_BAND_" ++ b) = some a)
    (hs : d.get? "SUN_ELEVATION" = some s) :
    dn_band dir d b =
      ([Cmd.inGdal (pathJoin dir (baseName dir ++ "_B" ++ b ++ ".TIF"))
          (pyLower (baseName dir) ++ "_b" ++ b) true,
        Cmd.gRegion (pyLower (baseName dir) ++ "_b" ++ b),
        Cmd.mapcalc (pyLower (baseName dir) ++ "_b" ++ b ++ "_reflect")
          (fmtF m) (pyLower (baseName dir) ++ "_b" ++ b) (fmtF a)
          (fmtF (90 - s)) true], none) ∧
    ∀ (cosd : ℚ → ℚ) (pix : List ℚ),
      mapcalcRun cosd (fmtF m) (fmtF a) (fmtF (90 - s)) pix
        = pix.map (fun dn => (fmtF m * dn + fmtF a) / cosd (fmtF (90 - s))) :=
  ⟨dn_band_ok dir d b m a s hm ha hs, fun _ _ => rfl⟩

/-- C1 witness, the spec's example scenario: mult `2.0E-5 = 1/50000`, add
`-0.1`, sun elevation `60`; the submitted expression carries exactly those
values (they are six-decimal exact) with zenith `30`, and on a raster with
the single DN pixel `10000`, with `cos 30° ≈ 0.866` the computed reflectance
is `(0.2 - 0.1) / 0.866 = 50/433 ≈ 0.11547`. -/
theorem C1_reflectance_witness :
    (dn_band "LC08"
        [("REFLECTANCE_MULT_BAND_4", (1 : ℚ) / 50000),
         ("REFLECTANCE_ADD_BAND_4", (-1 : ℚ) / 10),
         ("SUN_ELEVATION", (60 : ℚ))] "4" =
      ([Cmd.inGdal (pathJoin "LC08" (baseName "LC08" ++ "_B" ++ "4" ++ ".TIF"))
          (pyLower (baseName "LC08") ++ "_b" ++ "4") true,
        Cmd.gRegion (pyLower (baseName "LC08") ++ "_b" ++ "4"),
        Cmd.mapcalc (pyLower (baseName "LC08") ++ "_b" ++ "4" ++ "_reflect")
          (fmtF ((1 : ℚ) / 50000)) (pyLower (baseName "LC08") ++ "_b" ++ "4")
          (fmtF ((-1 : ℚ) / 10)) (fmtF (90 - (60 : ℚ))) true], none)) ∧
    fmtF ((1 : ℚ) / 50000) = (1 : ℚ) / 50000 ∧
    fmtF ((-1 : ℚ) / 10) = (-1 : ℚ) / 10 ∧
    fmtF (90 - (60 : ℚ)) = (30 : ℚ) ∧
    mapcalcRun (fun _ => (433 : ℚ) / 500) (fmtF ((1 : ℚ) / 50000))
        (fmtF ((-1 : ℚ) / 10)) (fmtF (90 - (60 : ℚ))) [10000]
      = [(50 : ℚ) / 433] := by
  have hfm : fmtF ((1 : ℚ) / 50000) = (1 : ℚ) / 50000 := by
    norm_num [fmtF, roundHalfEven]
  have hfa : fmtF ((-1 : ℚ) / 10) = (-1 : ℚ) / 10 := by
    norm_num [fmtF, roundHalfEven]
  have hfz : fmtF (90 - (60 : ℚ)) = (30 : ℚ) := by
    norm_num [fmtF, roundHalfEven]
  refine ⟨(C1_reflectance "LC08"
    [("REFLECTANCE_MULT_BAND_4", (1 : ℚ) / 50000),
     ("REFLECTANCE_ADD_BAND_4", (-1 : ℚ) / 10),
     ("SUN_ELEVATION", (60 : ℚ))] "4"
    ((1 : ℚ) / 50000) ((-1 : ℚ) / 10) (60 : ℚ) rfl rfl rfl).1,
    hfm, hfa, hfz, ?_⟩
  rw [hfm, hfa, hfz]
  norm_num [mapcalcRun]

/-- C6 counterexample: the zenith numeral in the submitted expression is NOT
always exactly `90 - sun_elevation`: it is that value rounded to six decimal
places by `'{:f}'`.  With sun elevation `0.1234567`, the expression carries
`89.876543`, not `89.8765433`. -/
theorem C6_counterexample :
    ¬ (∀ (dir : String) (d : Dict) (b : String) (m a s : ℚ),
        d.get? ("REFLECTANCE_MULT_BAND_" ++ b) = some m →
        d.get? ("REFLECTANCE_ADD_BAND_" ++ b) = some a →
        d.get? "SUN_ELEVATION" = some s →
        (dn_band dir d b).1.filterMap Cmd.zenithOf? = [90 - s]) := by
  intro hcl
  have h := hcl "LC08"
    [("REFLECTANCE_MULT_BAND_1", (1 : ℚ) / 50000),
     ("REFLECTANCE_ADD_BAND_1", (-1 : ℚ) / 10),
     ("SUN_ELEVATION", (1234567 : ℚ) / 10000000)]
    "1" ((1 : ℚ) / 50000) ((-1 : ℚ) / 10) ((1234567 : ℚ) / 10000000)
    rfl rfl rfl
  rw [dn_band_ok "LC08"
    [("REFLECTANCE_MULT_BAND_1", (1 : ℚ) / 50000),
     ("REFLECTANCE_ADD_BAND_1", (-1 : ℚ) / 10),
     ("SUN_ELEVATION", (1234567 : ℚ) / 10000000)]
    "1" ((1 : ℚ) / 50000) ((-1 : ℚ) / 10) ((1234567 : ℚ) / 10000000)
    rfl rfl rfl] at h
  have h2 : fmtF (90 - (1234567 : ℚ) / 10000000)
      = 90 - (1234567 : ℚ) / 10000000 := by
    have h3 : ([Cmd.inGdal
        (pathJoin "LC08" (baseName "LC08" ++ "_B" ++ "1" ++ ".TIF"))
        (pyLower (baseName "LC08") ++ "_b" ++ "1") true,
        Cmd.gRegion (pyLower (baseName "LC08") ++ "_b" ++ "1"),
        Cmd.mapcalc (pyLower (baseName "LC08") ++ "_b" ++ "1" ++ "_reflect")
          (fmtF ((1 : ℚ) / 50000)) (pyLower (baseName "LC08") ++ "_b" ++ "1")
          (fmtF ((-1 : ℚ) / 10))
          (fmtF (90 - (1234567 : ℚ) / 10000000)) true],
        (none : Option RErr)).1.filterMap Cmd.zenithOf?
        = [fmtF (90 - (1234567 : ℚ) / 10000000)] := rfl
    rw [h3] at h
    exact (List.cons.injEq _ _ _ _ |>.mp h).1
  rw [show fmtF (90 - (1234567 : ℚ) / 10000000) = (89876543 : ℚ) / 1000000
    from by norm_num [fmtF, roundHalfEven]] at h2
  exact absurd h2 (by norm_num)

/-- C6 (amended): the zenith value the per-band step computes is exactly
`90 - sun_elevation`, with no clamping and no wraparound for any sun
elevation (negative and above-90 values included); the numeral spliced into
the submitted expression is that zenith rounded to six decimal places by
`'{:f}'` (`fmtF`), and it equals `90 - sun_elevation` exactly whenever that
value has at most six decimal places. -/
theorem C6_zenith (dir : String) (d : Dict) (b : String) (m a s : ℚ)
    (hm : d.get? ("REFLECTANCE_MULT_BAND_" ++ b) = some m)
    (ha : d.get? ("REFLECTANCE_ADD_BAND_" ++ b) = some a)
    (hs : d.get? "SUN_ELEVATION" = some s) :
    (dn_band dir d b).1.filterMap Cmd.zenithOf? = [fmtF (90 - s)] ∧
    ∀ n : ℤ, (90 - s) * 1000000 = (n : ℚ) → fmtF (90 - s) = 90 - s := by
  constructor
  · rw [dn_band_ok dir d b m a s hm ha hs]
    rfl
  · exact fun n hn => fmtF_eq_self (90 - s) n hn

/-- C6 witness: with the negative sun elevation `-5` the zenith passes
through unclamped as `95`, which is six-decimal exact, so the submitted
expression carries exactly `95`. -/
theorem C6_zenith_witness :
    (dn_band "LC08"
        [("REFLECTANCE_MULT_BAND_4", (1 : ℚ) / 50000),
         ("REFLECTANCE_ADD_BAND_4", (-1 : ℚ) / 10),
         ("SUN_ELEVATION", (-5 : ℚ))] "4").1.filterMap Cmd.zenithOf?
      = [fmtF (90 - (-5 : ℚ))] ∧
    fmtF (90 - (-5 : ℚ)) = (95 : ℚ) := by
  obtain ⟨h1, h2⟩ := C6_zenith "LC08"
    [("REFLECTANCE_MULT_BAND_4", (1 : ℚ) / 50000),
     ("REFLECTANCE_ADD_BAND_4", (-1 : ℚ) / 10),
     ("SUN_ELEVATION", (-5 : ℚ))] "4"
    ((1 : ℚ) / 50000) ((-1 : ℚ) / 10) (-5 : ℚ) rfl rfl rfl
  refine ⟨h1, ?_⟩
  rw [h2 95000000 (by norm_num)]
  norm_num
